import Mathlib

/- Shallow embedding of the session-aware scrape-and-extract engine of the
solerons-scraping repository.  The repository holds two near-duplicate
variants of the scraper class (`src/scraper.js` and the unnamed variant
file); the pure text-extraction code (the `page.evaluate` body of `scrapeEnergyFlow`) is identical in both and is embedded once below.
JavaScript strings are modelled as Lean `String` via their character
lists; the page is modelled as the document-ordered list of the rendered
texts of all DOM elements (`document.querySelectorAll('*')`). -/

/- Character class of the JavaScript regex `\s` / `String.prototype.trim`,
restricted to the ASCII whitespace actually occurring in rendered page
text. -/
def jsWS (c : Char) : Bool :=
  c == ' ' || c == '\t' || c == '\n' || c == '\r' || c == '\x0b' || c == '\x0c'

/- The ten decimal digit characters (the JavaScript regex class `\d`). -/
def decDigits : List Char :=
  ['0', '1', '2', '3', '4', '5', '6', '7', '8', '9']

/- Numeric value of a decimal digit string, as computed by
`parseInt`/`parseFloat` on an all-digit capture. -/
def decVal (ds : List Char) : Nat :=
  ds.foldl (fun a c => 10 * a + (c.toNat - 48)) 0

/- List-prefix test (case-sensitive), used to model
`String.prototype.startsWith`. -/
def hasPrefixChars : List Char → List Char → Bool
  | [], _ => true
  | _ :: _, [] => false
  | a :: as, b :: bs => a == b && hasPrefixChars as bs

/- Substring occurrence test over character lists (needle, then haystack). -/
def containsAt : List Char → List Char → Bool
  | nd, [] => nd.isEmpty
  | nd, c :: cs => hasPrefixChars nd (c :: cs) || containsAt nd cs

/- Model of `String.prototype.includes` (case-sensitive substring test). -/
def jsIncludes (hay needle : String) : Bool :=
  containsAt needle.data hay.data

/- Model of `text.toLowerCase().includes(needle)` for an ASCII needle. -/
def jsIncludesCI (hay needle : String) : Bool :=
  containsAt needle.data (hay.data.map Char.toLower)

/- Model of the JavaScript `.length` of a rendered text (UTF-16 units; the
texts involved are ASCII, where this equals the character count). -/
def jsLen (s : String) : Nat :=
  s.data.length

/- Strip a literal pattern from the front of a character list, comparing
case-insensitively (the extraction regexes all carry the `i` flag). -/
def stripCI : List Char → List Char → Option (List Char)
  | [], cs => some cs
  | _ :: _, [] => none
  | p :: ps, c :: cs => if p.toLower == c.toLower then stripCI ps cs else none

/- Consume the optional leading minus sign of the capture `-?\d+`. -/
def splitNeg : List Char → Bool × List Char
  | '-' :: t => (true, t)
  | l => (false, l)

/- Attempt of the regex `/Load:\s*(-?\d+)\s*W/i` at one fixed position:
the helper `extractLoad` of `scrapeEnergyFlow`, localized. -/
def loadAt (cs : List Char) : Option Int :=
  match stripCI "Load:".data cs with
  | none => none
  | some r1 =>
    let r2 := r1.dropWhile jsWS
    let nr := splitNeg r2
    let ds := nr.2.takeWhile Char.isDigit
    if ds = [] then none
    else
      match ((nr.2.dropWhile Char.isDigit).dropWhile jsWS).head? with
      | some c =>
        if c.toLower == 'w' then
          some (if nr.1 then -(decVal ds : Int) else (decVal ds : Int))
        else none
      | none => none

/- Leftmost match of the load regex: scan positions left to right. -/
def findLoadChars : List Char → Option Int
  | [] => none
  | c :: cs =>
    match loadAt (c :: cs) with
    | some v => some v
    | none => findLoadChars cs

/- The `extractLoad` helper of `scrapeEnergyFlow`:
`text.match(/Load:\s*(-?\d+)\s*W/i)` followed by `parseInt`. -/
def extractLoad (s : String) : Option Int :=
  findLoadChars s.data

/- Attempt of the regex `/SoC:\s*(\d+)%/i` at one fixed position. -/
def socAt (cs : List Char) : Option Nat :=
  match stripCI "SoC:".data cs with
  | none => none
  | some r1 =>
    let r2 := r1.dropWhile jsWS
    let ds := r2.takeWhile Char.isDigit
    if ds = [] then none
    else
      if (r2.dropWhile Char.isDigit).head? == some '%' then some (decVal ds)
      else none

/- Leftmost match of the state-of-charge regex. -/
def findSoCChars : List Char → Option Nat
  | [] => none
  | c :: cs =>
    match socAt (c :: cs) with
    | some v => some v
    | none => findSoCChars cs

/- The `extractSoC` helper of `scrapeEnergyFlow`:
`text.match(/SoC:\s*(\d+)%/i)` followed by `parseInt`. -/
def extractSoC (s : String) : Option Nat :=
  findSoCChars s.data

/- Model of the JavaScript split of a text on the newline character
(empty segments are kept, as in JS). -/
def splitNL : List Char → List (List Char)
  | [] => [[]]
  | c :: cs =>
    if c = '\n' then [] :: splitNL cs
    else
      match splitNL cs with
      | l :: ls => (c :: l) :: ls
      | [] => [[c]]

/- Model of `String.prototype.trim` on a character list. -/
def trimChars (l : List Char) : List Char :=
  ((l.dropWhile jsWS).reverse.dropWhile jsWS).reverse

/- The line preprocessing of `extractStatus`: split on newlines, trim each
line, keep the non-empty ones. -/
def nonEmptyLines (s : String) : List (List Char) :=
  ((splitNL s.data).map trimChars).filter (fun l => l.length > 0)

/- The `extractStatus` helper of `scrapeEnergyFlow`: the second non-empty
trimmed line, rejected if it starts with `Load:` or `SoC:`. -/
def extractStatus (s : String) : Option String :=
  match nonEmptyLines s with
  | _ :: status :: _ =>
    if hasPrefixChars "Load:".data status || hasPrefixChars "SoC:".data status
    then none
    else some (String.mk status)
  | _ => none

/- Attempt of the regex `/mFRR[\s\n]*(\d+\.?\d*)\s*€?/i` at one position;
the capture is returned as the exact rational value of `parseFloat`. -/
def mfrrAt (cs : List Char) : Option ℚ :=
  match stripCI "mFRR".data cs with
  | none => none
  | some r1 =>
    let r2 := r1.dropWhile jsWS
    let ip := r2.takeWhile Char.isDigit
    if ip = [] then none
    else
      match r2.dropWhile Char.isDigit with
      | '.' :: r3 =>
        let fp := r3.takeWhile Char.isDigit
        some ((decVal ip : ℚ) + (decVal fp : ℚ) / ((10 : ℚ) ^ fp.length))
      | _ => some ((decVal ip : ℚ))

/- Leftmost match of the balancing-price regex. -/
def findMfrrChars : List Char → Option ℚ
  | [] => none
  | c :: cs =>
    match mfrrAt (c :: cs) with
    | some v => some v
    | none => findMfrrChars cs

/- Price parsing applied to the text of the matched element. -/
def extractMfrr (s : String) : Option ℚ :=
  findMfrrChars s.data

/- The `findElement` helper of `scrapeEnergyFlow`: the first element (in
document order) whose text contains the keyword and the literal `Load:`
and is shorter than 200 units; the element is identified with its text. -/
def findElement (keyword : String) (els : List String) : Option String :=
  els.find? fun text =>
    jsIncludes text keyword && jsIncludes text "Load:" && decide (jsLen text < 200)

/- The balancing-price element lookup: first element whose lowercased text
contains `mfrr` and whose length is below 500. -/
def findMfrrElement (els : List String) : Option String :=
  els.find? fun text => jsIncludesCI text "mfrr" && decide (jsLen text < 500)

/- One device entry of the result record (`{ load: ..., status: ... }`). -/
structure DeviceData where
  load : Option Int
  status : Option String
deriving DecidableEq

/- The battery entry (`{ load: ..., soc: ..., status: ... }`). -/
structure BatteryData where
  load : Option Int
  soc : Option Nat
  status : Option String
deriving DecidableEq

/- The result record built by the `page.evaluate` body of
`scrapeEnergyFlow`. -/
structure Snapshot where
  timestamp : String
  solar : DeviceData
  grid : DeviceData
  battery : BatteryData
  car : DeviceData
  consumption : DeviceData
  mfrr : Option ℚ
deriving DecidableEq

/- The per-device population step: the fields stay `null` when no card
matched, else `extractLoad`/`extractStatus` run on the card text (the
identical code is inlined per device in the source). -/
def deviceOf (card : Option String) : DeviceData :=
  match card with
  | some t => ⟨extractLoad t, extractStatus t⟩
  | none => ⟨none, none⟩

/- The full `page.evaluate` body of `scrapeEnergyFlow`: `ts` is the value
of `new Date().toISOString()` captured at extraction time, `els` the
document-ordered texts of all elements. -/
def scrapeEnergyFlowEval (ts : String) (els : List String) : Snapshot :=
  { timestamp := ts
    solar := deviceOf (findElement "Solar" els)
    grid := deviceOf (findElement "Grid" els)
    battery :=
      match findElement "Battery" els with
      | some t => ⟨extractLoad t, extractSoC t, extractStatus t⟩
      | none => ⟨none, none, none⟩
    car := deviceOf (findElement "Car" els)
    consumption := deviceOf (findElement "Consumption" els)
    mfrr := (findMfrrElement els).bind extractMfrr }

/- Mutable fields of the `SoleronScraper` instance: `this.browser`
(tracked together with `this.page` as a single liveness flag),
`this.isLoggedIn`, and `this.latestData`. -/
structure ScrState where
  browser : Bool
  isLoggedIn : Bool
  latestData : Option Snapshot
deriving DecidableEq

/- The state set up by the class constructor: no browser, not logged in,
empty cache. -/
def initialState : ScrState := ⟨false, false, none⟩

/- Observable actions of one `scrape()` call, in execution order. -/
inductive Ev
  | cycleStart
  | initBrowser
  | loginAttempt
  | navigate
  | screenshot
  | extract
  | storeCache
  | markUnauth
  | closeBrowser
  | backoff
deriving DecidableEq

/- The environment one cycle attempt runs against: which step fails (and
with which thrown message, since `scrape()` classifies failures by
message content), whether the data-presence wait times out, whether
`page.evaluate` throws, and the page contents and capture timestamp. -/
structure CycleEnv where
  initFail : Option String
  loginFail : Bool
  navFail : Option String
  waitTimeout : Bool
  evalFail : Bool
  ts : String
  els : List String

/- `scrapeEnergyFlow`: the bounded data-presence wait (screenshot on
timeout, no abort), then `page.evaluate`; an evaluation failure is caught
inside the method and the cached data returned; on success the result is
stored into `this.latestData` and returned. -/
def scrapeFlowStep (st : ScrState) (env : CycleEnv) (evs : List Ev) :
    ScrState × Except String (Option Snapshot) × List Ev :=
  let evs2 := evs ++ (if env.waitTimeout then [Ev.screenshot] else [])
  if env.evalFail then (st, Except.ok st.latestData, evs2)
  else
    ({ st with latestData := some (scrapeEnergyFlowEval env.ts env.els) },
     Except.ok (some (scrapeEnergyFlowEval env.ts env.els)),
     evs2 ++ [Ev.extract, Ev.storeCache])

/- The cycle after login: `navigateToPlant()` (throwing its message on
failure) and then `scrapeEnergyFlow()`. -/
def afterLogin (st : ScrState) (env : CycleEnv) (evs : List Ev) :
    ScrState × Except String (Option Snapshot) × List Ev :=
  match env.navFail with
  | some m => (st, Except.error m, evs ++ [Ev.navigate])
  | none => scrapeFlowStep st env (evs ++ [Ev.navigate])

/- The cycle after browser startup: `login()` is attempted only when
`this.isLoggedIn` is false; on failure `login()` rethrows the uniform
message `Login failed`, on success it sets `this.isLoggedIn = true`. -/
def afterInit (st : ScrState) (env : CycleEnv) (evs : List Ev) :
    ScrState × Except String (Option Snapshot) × List Ev :=
  if st.isLoggedIn then afterLogin st env evs
  else if env.loginFail then (st, Except.error "Login failed", evs ++ [Ev.loginAttempt])
  else afterLogin { st with isLoggedIn := true } env (evs ++ [Ev.loginAttempt])

/- One pass of the `try` block of `scrape()`: lazy `initialize()` when
`this.browser` is null, then login, navigation, extraction. -/
def runCycle (st : ScrState) (env : CycleEnv) :
    ScrState × Except String (Option Snapshot) × List Ev :=
  if st.browser then afterInit st env [Ev.cycleStart]
  else
    match env.initFail with
    | some m => (st, Except.error m, [Ev.cycleStart, Ev.initBrowser])
    | none => afterInit { st with browser := true } env [Ev.cycleStart, Ev.initBrowser]

/- Failure classification of the unnamed scraper variant: the thrown
message is checked (case-sensitively) for the substrings `Session`,
`login` and `navigate`. -/
def classifiedV1 (m : String) : Bool :=
  jsIncludes m "Session" || jsIncludes m "login" || jsIncludes m "navigate"

/- Failure classification of `src/scraper.js`: only the substrings
`Session` and `login` are checked. -/
def classifiedV0 (m : String) : Bool :=
  jsIncludes m "Session" || jsIncludes m "login"

/- `close()`: when a browser exists, close it and clear `this.browser`,
`this.page` and `this.isLoggedIn`; otherwise do nothing.  The cached
`this.latestData` is never touched. -/
def close (st : ScrState) : ScrState × List Ev :=
  if st.browser then ({ st with browser := false, isLoggedIn := false }, [Ev.closeBrowser])
  else (st, [])

/- `getLatestData()`. -/
def getLatestData (st : ScrState) : Option Snapshot :=
  st.latestData

/- `scrape()` of the unnamed scraper variant.  The catch block: when the
thrown message is classified as a session/navigation fault, mark the
session unauthenticated, tear the browser down, wait a fixed 5s backoff,
and recursively call `scrape()` again; otherwise return the cached data.
The JavaScript recursion is unbounded; the Lean model consumes one
environment per attempt from the supplied list (an empty list means the
environment provides no further attempt, and the model returns the
cache, which no theorem below relies on). -/
def scrape (st : ScrState) : List CycleEnv → ScrState × Option Snapshot × List Ev
  | [] => (st, st.latestData, [])
  | env :: rest =>
    match runCycle st env with
    | (st', Except.ok d, evs) => (st', d, evs)
    | (st', Except.error m, evs) =>
      if classifiedV1 m then
        ((scrape ((close { st' with isLoggedIn := false }).1) rest).1,
         (scrape ((close { st' with isLoggedIn := false }).1) rest).2.1,
         evs ++ Ev.markUnauth :: (close { st' with isLoggedIn := false }).2
             ++ Ev.backoff :: (scrape ((close { st' with isLoggedIn := false }).1) rest).2.2)
      else (st', st'.latestData, evs)

/- `scrape()` of `src/scraper.js`: same shape, with the narrower
classification and no backoff wait before the recursive retry. -/
def scrapeV0 (st : ScrState) : List CycleEnv → ScrState × Option Snapshot × List Ev
  | [] => (st, st.latestData, [])
  | env :: rest =>
    match runCycle st env with
    | (st', Except.ok d, evs) => (st', d, evs)
    | (st', Except.error m, evs) =>
      if classifiedV0 m then
        ((scrapeV0 ((close { st' with isLoggedIn := false }).1) rest).1,
         (scrapeV0 ((close { st' with isLoggedIn := false }).1) rest).2.1,
         evs ++ Ev.markUnauth :: (close { st' with isLoggedIn := false }).2
             ++ (scrapeV0 ((close { st' with isLoggedIn := false }).1) rest).2.2)
      else (st', st'.latestData, evs)

/- An element of the login page, reduced to the attributes the submit
selectors of the unnamed variant's `login()` inspect: `[type="submit"]`,
the class `amplify-button--primary`, and `[role="tab"]`. -/
structure BtnEl where
  typeSubmit : Bool
  amplifyPrimary : Bool
  roleTab : Bool
deriving DecidableEq

/- The submit action `login()` ends up performing. -/
inductive SubmitAction
  | click (b : BtnEl)
  | pressEnterPassword
deriving DecidableEq

/- `page.$('button[type="submit"].amplify-button--primary')`: first match
in document order. -/
def queryPrimarySubmit (els : List BtnEl) : Option BtnEl :=
  els.find? fun b => b.typeSubmit && b.amplifyPrimary

/- `page.$('button[type="submit"]:not([role="tab"])')`. -/
def querySubmitNotTab (els : List BtnEl) : Option BtnEl :=
  els.find? fun b => b.typeSubmit && !b.roleTab

/- The submit step of the unnamed variant's `login()`: try the primary
Amplify button, fall back to any non-tab submit button, and finally press
Enter from the password field. -/
def submitStep (els : List BtnEl) : SubmitAction :=
  match queryPrimarySubmit els with
  | some b => SubmitAction.click b
  | none =>
    match querySubmitNotTab els with
    | some b => SubmitAction.click b
    | none => SubmitAction.pressEnterPassword

/- The worked example fragment from the specification. -/
def batteryFrag : String := "Battery\nCharging\nLoad: 450 W\nSoC: 78%"

/- A navigation failure: the message thrown by `navigateToPlant()` when no
fallback tier reaches the plant view. -/
def navFailEnv : CycleEnv :=
  { initFail := none, loginFail := false
    navFail := some "Failed to navigate to plant page. Current URL: https://app.soleronenergy.com/#/"
    waitTimeout := false, evalFail := false
    ts := "2025-01-01T00:00:00.000Z", els := [] }

/- A browser-startup failure whose message matches no classification
keyword. -/
def crashEnv : CycleEnv :=
  { initFail := some "Failed to launch the browser process", loginFail := false
    navFail := none, waitTimeout := false, evalFail := false
    ts := "2025-01-01T00:00:00.000Z", els := [] }

/- An authentication failure (`login()` throws `'Login failed'`). -/
def loginFailEnv : CycleEnv :=
  { initFail := none, loginFail := true, navFail := none
    waitTimeout := false, evalFail := false
    ts := "2025-01-01T00:00:00.000Z", els := [] }

/- A fully successful cycle environment over a one-card page. -/
def okEnv : CycleEnv :=
  { initFail := none, loginFail := false, navFail := none
    waitTimeout := false, evalFail := false
    ts := "2025-01-01T00:00:00.000Z", els := ["Solar\nProducing\nLoad: 100 W"] }


/- A login page holding a single generic (non-tab) submit button. -/
def btnGeneric : BtnEl :=
  { typeSubmit := true, amplifyPrimary := false, roleTab := false }

/- A page whose battery card shows a state of charge but no load marker. -/
def pageNoBatteryLoad : List String :=
  ["Battery\nIdle\nSoC: 50%", "Solar\nProducing\nLoad: 100 W"]

/- The same page with the battery card removed. -/
def pageSolarOnly : List String :=
  ["Solar\nProducing\nLoad: 100 W"]

/- A battery card with a visible `SoC:` reading and no `Load:` marker. -/
def socOnlyPage : List String :=
  ["Battery\nCharging\nSoC: 78%"]

/- Every decimal digit character is a `\d` character. -/
theorem decDigit_isDigit (c : Char) (h : c ∈ decDigits) : Char.isDigit c = true := by
  fin_cases h <;> decide

/- No decimal digit character is whitespace. -/
theorem decDigit_not_ws (c : Char) (h : c ∈ decDigits) : jsWS c = false := by
  fin_cases h <;> decide

/- A digit head is not consumed as a minus sign. -/
theorem splitNeg_digit (c : Char) (l : List Char) (h : c ∈ decDigits) :
    splitNeg (c :: l) = (false, c :: l) := by
  fin_cases h <;> rfl

/- The digit run of an all-digit prefix is taken whole. -/
theorem takeWhileDigitsApp (ds r : List Char) (hd : ∀ c ∈ ds, c ∈ decDigits) :
    (ds ++ r).takeWhile Char.isDigit = ds ++ r.takeWhile Char.isDigit := by
  induction ds with
  | nil => rfl
  | cons a t ih =>
    rw [List.cons_append, List.takeWhile_cons, decDigit_isDigit a (hd a (by simp))]
    simp only [if_true]
    rw [ih (fun c hc => hd c (by simp [hc]))]
    rfl

/- Dropping the digit run of an all-digit prefix drops exactly it. -/
theorem dropWhileDigitsApp (ds r : List Char) (hd : ∀ c ∈ ds, c ∈ decDigits) :
    (ds ++ r).dropWhile Char.isDigit = r.dropWhile Char.isDigit := by
  induction ds with
  | nil => rfl
  | cons a t ih =>
    rw [List.cons_append, List.dropWhile_cons, decDigit_isDigit a (hd a (by simp))]
    simp only [if_true]
    exact ih (fun c hc => hd c (by simp [hc]))

/- Whitespace skipping stops at a digit run. -/
theorem dropWhileWSDigits (ds r : List Char) (h0 : ds ≠ []) (hd : ∀ c ∈ ds, c ∈ decDigits) :
    (ds ++ r).dropWhile jsWS = ds ++ r := by
  cases ds with
  | nil => exact absurd rfl h0
  | cons a t =>
    rw [List.cons_append, List.dropWhile_cons, decDigit_not_ws a (hd a (by simp))]
    simp

/- The load regex accepts a digit capture at the start of a fragment. -/
theorem loadAt_app (ds : List Char) (h0 : ds ≠ []) (hd : ∀ c ∈ ds, c ∈ decDigits) :
    loadAt ('L' :: 'o' :: 'a' :: 'd' :: ':' :: ' ' :: (ds ++ [' ', 'W'])) =
      some ((decVal ds : Int)) := by
  obtain ⟨d, ds0, rfl⟩ : ∃ d ds0, ds = d :: ds0 := by
    cases ds with
    | nil => exact absurd rfl h0
    | cons a t => exact ⟨a, t, rfl⟩
  unfold loadAt
  have hstrip : stripCI "Load:".data ('L' :: 'o' :: 'a' :: 'd' :: ':' :: ' ' :: ((d :: ds0) ++ [' ', 'W'])) =
      some (' ' :: ((d :: ds0) ++ [' ', 'W'])) := rfl
  rw [hstrip]
  have h1 : List.dropWhile jsWS (' ' :: d :: (ds0 ++ [' ', 'W'])) = d :: (ds0 ++ [' ', 'W']) := by
    rw [List.dropWhile_cons]
    simp only [show jsWS ' ' = true from rfl, if_true]
    rw [show (d :: (ds0 ++ [' ', 'W'])) = ((d :: ds0) ++ [' ', 'W']) from rfl]
    exact dropWhileWSDigits (d :: ds0) [' ', 'W'] (by simp) hd
  simp only [List.cons_append, h1]
  rw [splitNeg_digit d (ds0 ++ [' ', 'W']) (hd d (by simp))]
  dsimp only
  rw [← List.cons_append d ds0 [' ', 'W']]
  rw [takeWhileDigitsApp (d :: ds0) [' ', 'W'] hd, dropWhileDigitsApp (d :: ds0) [' ', 'W'] hd]
  rw [show List.takeWhile Char.isDigit [' ', 'W'] = [] from rfl, List.append_nil]
  rw [if_neg (by simp)]
  rfl

/- The load regex accepts a minus sign before the digit capture. -/
theorem loadAtNeg_app (ds : List Char) (h0 : ds ≠ []) (hd : ∀ c ∈ ds, c ∈ decDigits) :
    loadAt ('L' :: 'o' :: 'a' :: 'd' :: ':' :: ' ' :: '-' :: (ds ++ [' ', 'W'])) =
      some (-(decVal ds : Int)) := by
  obtain ⟨d, ds0, rfl⟩ : ∃ d ds0, ds = d :: ds0 := by
    cases ds with
    | nil => exact absurd rfl h0
    | cons a t => exact ⟨a, t, rfl⟩
  unfold loadAt
  have hstrip : stripCI "Load:".data ('L' :: 'o' :: 'a' :: 'd' :: ':' :: ' ' :: '-' :: (d :: ds0 ++ [' ', 'W'])) =
      some (' ' :: '-' :: (d :: ds0 ++ [' ', 'W'])) := rfl
  rw [hstrip]
  have h1 : List.dropWhile jsWS (' ' :: '-' :: d :: (ds0 ++ [' ', 'W'])) = '-' :: d :: (ds0 ++ [' ', 'W']) := by
    rw [List.dropWhile_cons]
    simp only [show jsWS ' ' = true from rfl, if_true]
    rw [List.dropWhile_cons]
    simp only [show jsWS '-' = false from rfl]
    simp
  simp only [List.cons_append, h1]
  rw [show splitNeg ('-' :: d :: (ds0 ++ [' ', 'W'])) = (true, d :: (ds0 ++ [' ', 'W'])) from rfl]
  dsimp only
  rw [← List.cons_append d ds0 [' ', 'W']]
  rw [takeWhileDigitsApp (d :: ds0) [' ', 'W'] hd, dropWhileDigitsApp (d :: ds0) [' ', 'W'] hd]
  rw [show List.takeWhile Char.isDigit [' ', 'W'] = [] from rfl, List.append_nil]
  rw [if_neg (by simp)]
  rfl

/- The state-of-charge regex accepts a digit capture at the start. -/
theorem socAt_app (ds : List Char) (h0 : ds ≠ []) (hd : ∀ c ∈ ds, c ∈ decDigits) :
    socAt ('S' :: 'o' :: 'C' :: ':' :: ' ' :: (ds ++ ['%'])) = some (decVal ds) := by
  obtain ⟨d, ds0, rfl⟩ : ∃ d ds0, ds = d :: ds0 := by
    cases ds with
    | nil => exact absurd rfl h0
    | cons a t => exact ⟨a, t, rfl⟩
  unfold socAt
  have hstrip : stripCI "SoC:".data ('S' :: 'o' :: 'C' :: ':' :: ' ' :: (d :: ds0 ++ ['%'])) =
      some (' ' :: (d :: ds0 ++ ['%'])) := rfl
  rw [hstrip]
  have h1 : List.dropWhile jsWS (' ' :: d :: (ds0 ++ ['%'])) = d :: (ds0 ++ ['%']) := by
    rw [List.dropWhile_cons]
    simp only [show jsWS ' ' = true from rfl, if_true]
    rw [show (d :: (ds0 ++ ['%'])) = ((d :: ds0) ++ ['%']) from rfl]
    exact dropWhileWSDigits (d :: ds0) ['%'] (by simp) hd
  simp only [List.cons_append, h1]
  rw [← List.cons_append d ds0 ['%']]
  rw [takeWhileDigitsApp (d :: ds0) ['%'] hd, dropWhileDigitsApp (d :: ds0) ['%'] hd]
  rw [show List.takeWhile Char.isDigit ['%'] = [] from rfl, List.append_nil]
  rw [if_neg (by simp)]
  rfl

/- `extractLoad` on a well-formed positive load fragment. -/
theorem extractLoad_app (ds : List Char) (h0 : ds ≠ []) (hd : ∀ c ∈ ds, c ∈ decDigits) :
    extractLoad ("Load: " ++ String.mk ds ++ " W") = some ((decVal ds : Int)) := by
  have hdata : ("Load: " ++ String.mk ds ++ " W").data =
      'L' :: 'o' :: 'a' :: 'd' :: ':' :: ' ' :: (ds ++ [' ', 'W']) := by
    show ("Load: ".data ++ ds) ++ " W".data = _
    rw [List.append_assoc]
    rfl
  unfold extractLoad
  rw [hdata]
  have hpos := loadAt_app ds h0 hd
  simp only [findLoadChars]
  rw [hpos]

/- `extractLoad` on a well-formed negative load fragment. -/
theorem extractLoadNeg_app (ds : List Char) (h0 : ds ≠ []) (hd : ∀ c ∈ ds, c ∈ decDigits) :
    extractLoad ("Load: -" ++ String.mk ds ++ " W") = some (-(decVal ds : Int)) := by
  have hdata : ("Load: -" ++ String.mk ds ++ " W").data =
      'L' :: 'o' :: 'a' :: 'd' :: ':' :: ' ' :: '-' :: (ds ++ [' ', 'W']) := by
    show ("Load: -".data ++ ds) ++ " W".data = _
    rw [List.append_assoc]
    rfl
  unfold extractLoad
  rw [hdata]
  have hpos := loadAtNeg_app ds h0 hd
  simp only [findLoadChars]
  rw [hpos]

/- `extractSoC` on a well-formed state-of-charge fragment. -/
theorem extractSoC_app (ds : List Char) (h0 : ds ≠ []) (hd : ∀ c ∈ ds, c ∈ decDigits) :
    extractSoC ("SoC: " ++ String.mk ds ++ "%") = some (decVal ds) := by
  have hdata : ("SoC: " ++ String.mk ds ++ "%").data =
      'S' :: 'o' :: 'C' :: ':' :: ' ' :: (ds ++ ['%']) := by
    show ("SoC: ".data ++ ds) ++ "%".data = _
    rw [List.append_assoc]
    rfl
  unfold extractSoC
  rw [hdata]
  have hpos := socAt_app ds h0 hd
  simp only [findSoCChars]
  rw [hpos]

/- `close` never touches the cached snapshot. -/
theorem close_cache (st : ScrState) : (close st).1.latestData = st.latestData := by
  unfold close
  rcases st with ⟨b, l, d⟩
  cases b <;> simp

/- One cycle either leaves the cache untouched, or succeeds and stores the
complete extraction result of its page. -/
theorem runCycle_cache (st : ScrState) (env : CycleEnv) :
    (runCycle st env).1.latestData = st.latestData
    ∨ ((runCycle st env).2.1 = Except.ok (some (scrapeEnergyFlowEval env.ts env.els))
        ∧ (runCycle st env).1.latestData = some (scrapeEnergyFlowEval env.ts env.els)) := by
  rcases st with ⟨b, lg, dd⟩
  rcases env with ⟨i, lf, nf, wt, ef, ts, els⟩
  rcases i with _ | m1 <;> rcases nf with _ | m2 <;> cases b <;> cases lg <;> cases lf <;> cases ef <;>
    first | exact Or.inl rfl | exact Or.inr ⟨rfl, rfl⟩

/- Across a whole `scrape` run the cache is either untouched or holds the
complete extraction result of one of the attempted cycles. -/
theorem scrape_cache (envs : List CycleEnv) (st : ScrState) :
    (scrape st envs).1.latestData = st.latestData
    ∨ ∃ e ∈ envs, (scrape st envs).1.latestData = some (scrapeEnergyFlowEval e.ts e.els) := by
  induction envs generalizing st with
  | nil => exact Or.inl rfl
  | cons env rest ih =>
    rcases hrun : runCycle st env with ⟨st', r, evs⟩
    have hc := runCycle_cache st env
    rw [hrun] at hc
    dsimp only at hc
    cases r with
    | ok d =>
      simp only [scrape, hrun]
      rcases hc with hc | ⟨-, hc⟩
      · exact Or.inl hc
      · exact Or.inr ⟨env, by simp, hc⟩
    | error m =>
      have hlat : st'.latestData = st.latestData := by
        rcases hc with hc | ⟨hok, -⟩
        · exact hc
        · exact absurd hok (by simp)
      cases hcl : classifiedV1 m with
      | true =>
        simp only [scrape, hrun, hcl, if_true]
        have hst3 : ((close { st' with isLoggedIn := false }).1).latestData = st.latestData := by
          rw [close_cache]
          exact hlat
        rcases ih ((close { st' with isLoggedIn := false }).1) with h | ⟨e, he, heq⟩
        · exact Or.inl (by rw [h, hst3])
        · exact Or.inr ⟨e, by simp [he], heq⟩
      | false =>
        simp only [scrape, hrun, hcl, Bool.false_eq_true, if_false]
        exact Or.inl hlat

/-- C1 (counterexample): the claim says a classified session/navigation
failure triggers exactly one retry of the whole cycle before giving up,
i.e. at most two cycle attempts per outer `scrape()` call.  Against an
environment in which the first two attempts both fail with the navigation
failure message and the third attempt crashes at browser startup, the
code runs three cycle attempts: the retry itself retries. -/
theorem C1_counterexample :
    ((scrape initialState [navFailEnv, navFailEnv, crashEnv]).2.2).count Ev.cycleStart = 3
    ∧ ¬ (((scrape initialState [navFailEnv, navFailEnv, crashEnv]).2.2).count Ev.cycleStart ≤ 2)
    ∧ (scrape initialState [navFailEnv, navFailEnv, crashEnv]).2.1 = initialState.latestData := by
  decide

/-- C1 (amended): for every number `n` of consecutive classified
navigation failures, `scrape()` runs `n + 1` cycle attempts — after every
classified failure it marks the session unauthenticated, tears the
browser down, waits the fixed backoff and retries the whole cycle again,
without any bound on the number of retries; it gives up and returns the
cached snapshot only when an attempt fails with a message that is not
classified as a session/navigation fault. -/
theorem C1_amended_unbounded_retry (c : Option Snapshot) (n : Nat) :
    (scrape ⟨false, false, c⟩ (List.replicate n navFailEnv ++ [crashEnv])).2.1 = c
    ∧ (scrape ⟨false, false, c⟩ (List.replicate n navFailEnv ++ [crashEnv])).1.latestData = c
    ∧ ((scrape ⟨false, false, c⟩ (List.replicate n navFailEnv ++ [crashEnv])).2.2).count Ev.cycleStart = n + 1
    ∧ ((scrape ⟨false, false, c⟩ (List.replicate n navFailEnv ++ [crashEnv])).2.2).count Ev.backoff = n
    ∧ ((scrape ⟨false, false, c⟩ (List.replicate n navFailEnv ++ [crashEnv])).2.2).count Ev.closeBrowser = n
    ∧ ((scrape ⟨false, false, c⟩ (List.replicate n navFailEnv ++ [crashEnv])).2.2).count Ev.markUnauth = n := by
  induction n with
  | zero => exact ⟨rfl, rfl, rfl, rfl, rfl, rfl⟩
  | succ n ih =>
    have hrun : runCycle ⟨false, false, c⟩ navFailEnv =
        (⟨true, true, c⟩,
         Except.error "Failed to navigate to plant page. Current URL: https://app.soleronenergy.com/#/",
         [Ev.cycleStart, Ev.initBrowser, Ev.loginAttempt, Ev.navigate]) := rfl
    have hcl : classifiedV1 "Failed to navigate to plant page. Current URL: https://app.soleronenergy.com/#/" = true := by
      decide
    have hclose : close { (⟨true, true, c⟩ : ScrState) with isLoggedIn := false } =
        (⟨false, false, c⟩, [Ev.closeBrowser]) := rfl
    rw [List.replicate_succ, List.cons_append]
    simp only [scrape, hrun, hcl, if_true, hclose]
    obtain ⟨ih1, ih2, ih3, ih4, ih5, ih6⟩ := ih
    refine ⟨ih1, ih2, ?_, ?_, ?_, ?_⟩ <;>
      simp only [List.count_append, List.count_cons, List.count_nil, ih3, ih4, ih5, ih6] <;>
      simp [beq_iff_eq] <;> omega

/-- C2: in `src/scraper.js`, when authentication fails (the thrown message
is `Login failed`) or the target view is unreachable after all fallback
tiers (the `Failed to navigate to plant page` message), `scrape()` tears
the session down at most once within the outer call (in fact not at all,
since neither message matches the case-sensitive `Session`/`login`
classification), and returns the previously cached snapshot — `c`, which
is `none` when never populated — instead of throwing. -/
theorem C2_auth_or_nav_failure_returns_cache (b : Bool) (c : Option Snapshot) (rest : List CycleEnv) :
    ((scrapeV0 ⟨b, false, c⟩ (loginFailEnv :: rest)).2.1 = c
      ∧ (scrapeV0 ⟨b, false, c⟩ (loginFailEnv :: rest)).1.latestData = c
      ∧ ((scrapeV0 ⟨b, false, c⟩ (loginFailEnv :: rest)).2.2).count Ev.closeBrowser ≤ 1
      ∧ ((scrapeV0 ⟨b, false, c⟩ (loginFailEnv :: rest)).2.2).count Ev.markUnauth = 0)
    ∧ ((scrapeV0 ⟨b, false, c⟩ (navFailEnv :: rest)).2.1 = c
      ∧ (scrapeV0 ⟨b, false, c⟩ (navFailEnv :: rest)).1.latestData = c
      ∧ ((scrapeV0 ⟨b, false, c⟩ (navFailEnv :: rest)).2.2).count Ev.closeBrowser ≤ 1
      ∧ ((scrapeV0 ⟨b, false, c⟩ (navFailEnv :: rest)).2.2).count Ev.markUnauth = 0) := by
  cases b
  · refine ⟨⟨rfl, rfl, ?_, ?_⟩, rfl, rfl, ?_, ?_⟩ <;>
      first
      | (rw [show (scrapeV0 ⟨false, false, c⟩ (loginFailEnv :: rest)).2.2 =
            [Ev.cycleStart, Ev.initBrowser, Ev.loginAttempt] from rfl]; decide)
      | (rw [show (scrapeV0 ⟨false, false, c⟩ (navFailEnv :: rest)).2.2 =
            [Ev.cycleStart, Ev.initBrowser, Ev.loginAttempt, Ev.navigate] from rfl]; decide)
  · refine ⟨⟨rfl, rfl, ?_, ?_⟩, rfl, rfl, ?_, ?_⟩ <;>
      first
      | (rw [show (scrapeV0 ⟨true, false, c⟩ (loginFailEnv :: rest)).2.2 =
            [Ev.cycleStart, Ev.loginAttempt] from rfl]; decide)
      | (rw [show (scrapeV0 ⟨true, false, c⟩ (navFailEnv :: rest)).2.2 =
            [Ev.cycleStart, Ev.loginAttempt, Ev.navigate] from rfl]; decide)

/-- C3: the cache slot visible through `getLatestData()` is replaced only
by a complete `scrapeEnergyFlowEval` result of one of the attempted
cycles (a single whole-record assignment), and a cycle that fails before
extraction completes leaves the previously cached snapshot unchanged. -/
theorem C3_cache_only_complete_snapshots (st : ScrState) (envs : List CycleEnv) (env : CycleEnv) :
    (getLatestData (scrape st envs).1 = getLatestData st
      ∨ ∃ e ∈ envs, getLatestData (scrape st envs).1 = some (scrapeEnergyFlowEval e.ts e.els))
    ∧ (∀ m, (runCycle st env).2.1 = Except.error m →
        getLatestData (runCycle st env).1 = getLatestData st)
    ∧ getLatestData st = st.latestData := by
  refine ⟨scrape_cache envs st, ?_, rfl⟩
  intro m hm
  rcases runCycle_cache st env with hc | ⟨hok, -⟩
  · exact hc
  · rw [hm] at hok
    exact absurd hok (by simp)

/-- C3 (witness): a cycle failing at browser startup leaves the cache of a
fresh scraper unchanged. -/
theorem C3_witness :
    getLatestData (runCycle initialState crashEnv).1 = getLatestData initialState :=
  (C3_cache_only_complete_snapshots initialState [] crashEnv).2.1
    "Failed to launch the browser process" rfl

/-- C4: on the fragment `Battery\nCharging\nLoad: 450 W\nSoC: 78%` the
extractor yields load 450, status `Charging` and state of charge 78 (both
directly and through the full page evaluation); the sign of a load is
preserved (`Load: -123 W` gives -123); a candidate status line starting
with `Load:` or `SoC:` is rejected; and in general, for every non-empty
digit string, the load is the signed integer between `Load:` and `W` and
the state of charge the integer between `SoC:` and `%`. -/
theorem C4_extractor_values :
    (extractLoad batteryFrag = some 450 ∧ extractStatus batteryFrag = some "Charging"
      ∧ extractSoC batteryFrag = some 78)
    ∧ (scrapeEnergyFlowEval "t" [batteryFrag]).battery = ⟨some 450, some 78, some "Charging"⟩
    ∧ extractLoad "Load: -123 W" = some (-123)
    ∧ extractStatus "Battery\nLoad: 450 W\nSoC: 78%" = none
    ∧ ∀ ds : List Char, ds ≠ [] → (∀ c ∈ ds, c ∈ decDigits) →
        extractLoad ("Load: " ++ String.mk ds ++ " W") = some ((decVal ds : Int))
        ∧ extractLoad ("Load: -" ++ String.mk ds ++ " W") = some (-(decVal ds : Int))
        ∧ extractSoC ("SoC: " ++ String.mk ds ++ "%") = some (decVal ds) := by
  refine ⟨by decide, by decide, by decide, by decide, fun ds h0 hd => ⟨?_, ?_, ?_⟩⟩
  · exact extractLoad_app ds h0 hd
  · exact extractLoadNeg_app ds h0 hd
  · exact extractSoC_app ds h0 hd

/-- C4 (witness): the general digit-string clause evaluated at the digit
string 78. -/
theorem C4_witness :
    (['7', '8'] ≠ ([] : List Char) ∧ ∀ c ∈ ['7', '8'], c ∈ decDigits)
    ∧ extractLoad ("Load: " ++ String.mk ['7', '8'] ++ " W") = some ((decVal ['7', '8'] : Int))
    ∧ extractLoad ("Load: -" ++ String.mk ['7', '8'] ++ " W") = some (-(decVal ['7', '8'] : Int))
    ∧ extractSoC ("SoC: " ++ String.mk ['7', '8'] ++ "%") = some (decVal ['7', '8']) := by
  refine ⟨⟨by decide, by decide⟩, ?_, ?_, ?_⟩
  · exact (C4_extractor_values.2.2.2.2 ['7', '8'] (by decide) (by decide)).1
  · exact (C4_extractor_values.2.2.2.2 ['7', '8'] (by decide) (by decide)).2.1
  · exact (C4_extractor_values.2.2.2.2 ['7', '8'] (by decide) (by decide)).2.2

/-- C5: whether or not the bounded data-presence wait times out,
`scrapeEnergyFlow` produces the same state and the same successfully
extracted snapshot — the timeout only prepends a diagnostic screenshot to
the observable actions and never aborts the cycle (the cycle result stays
`Except.ok`); extraction over an empty page yields a snapshot whose
fields are absent rather than a failure. -/
theorem C5_timeout_no_abort (st : ScrState) (c : Option Snapshot) (env : CycleEnv)
    (h1 : env.initFail = none) (h2 : env.loginFail = false) (h3 : env.navFail = none)
    (he : env.evalFail = false) :
    (scrapeFlowStep st { env with waitTimeout := true } []).1
      = (scrapeFlowStep st { env with waitTimeout := false } []).1
    ∧ (scrapeFlowStep st { env with waitTimeout := true } []).2.1
      = Except.ok (some (scrapeEnergyFlowEval env.ts env.els))
    ∧ (scrapeFlowStep st { env with waitTimeout := false } []).2.1
      = Except.ok (some (scrapeEnergyFlowEval env.ts env.els))
    ∧ (scrapeFlowStep st { env with waitTimeout := true } []).2.2
      = Ev.screenshot :: (scrapeFlowStep st { env with waitTimeout := false } []).2.2
    ∧ (runCycle ⟨true, true, c⟩ { env with waitTimeout := true }).2.1
      = Except.ok (some (scrapeEnergyFlowEval env.ts env.els))
    ∧ (scrapeEnergyFlowEval env.ts []).solar = ⟨none, none⟩
    ∧ (scrapeEnergyFlowEval env.ts []).battery = ⟨none, none, none⟩
    ∧ (scrapeEnergyFlowEval env.ts []).mfrr = none := by
  rcases env with ⟨i, lf, nf, wt, ef, ts, els⟩
  dsimp only at h1 h2 h3 he
  subst h1 h2 h3 he
  exact ⟨rfl, rfl, rfl, rfl, rfl, rfl, rfl, rfl⟩

/-- C5 (witness): the timed-out and non-timed-out runs over the demo page
agree, with the screenshot as the only extra action. -/
theorem C5_witness :
    (scrapeFlowStep initialState { okEnv with waitTimeout := true } []).2.1
      = Except.ok (some (scrapeEnergyFlowEval okEnv.ts okEnv.els))
    ∧ (scrapeFlowStep initialState { okEnv with waitTimeout := true } []).2.2
      = Ev.screenshot :: (scrapeFlowStep initialState { okEnv with waitTimeout := false } []).2.2 :=
  ⟨(C5_timeout_no_abort initialState none okEnv rfl rfl rfl rfl).2.1,
   (C5_timeout_no_abort initialState none okEnv rfl rfl rfl rfl).2.2.2.1⟩

/-- C6: when no element of the page couples the `Battery` label with a
`Load:` marker, the battery load is absent (`none`, not zero); and each
of the five device lookups and the price lookup determines its result
record alone — pages agreeing on one lookup agree on that part of the
snapshot, so the failure of one lookup cannot affect the others. -/
theorem C6_independent_lookups (ts : String) (els els2 : List String) :
    ((∀ e ∈ els, jsIncludes e "Battery" = true → jsIncludes e "Load:" = false) →
      (scrapeEnergyFlowEval ts els).battery.load = none)
    ∧ (findElement "Solar" els = findElement "Solar" els2 →
        (scrapeEnergyFlowEval ts els).solar = (scrapeEnergyFlowEval ts els2).solar)
    ∧ (findElement "Grid" els = findElement "Grid" els2 →
        (scrapeEnergyFlowEval ts els).grid = (scrapeEnergyFlowEval ts els2).grid)
    ∧ (findElement "Battery" els = findElement "Battery" els2 →
        (scrapeEnergyFlowEval ts els).battery = (scrapeEnergyFlowEval ts els2).battery)
    ∧ (findElement "Car" els = findElement "Car" els2 →
        (scrapeEnergyFlowEval ts els).car = (scrapeEnergyFlowEval ts els2).car)
    ∧ (findElement "Consumption" els = findElement "Consumption" els2 →
        (scrapeEnergyFlowEval ts els).consumption = (scrapeEnergyFlowEval ts els2).consumption)
    ∧ (findMfrrElement els = findMfrrElement els2 →
        (scrapeEnergyFlowEval ts els).mfrr = (scrapeEnergyFlowEval ts els2).mfrr) := by
  refine ⟨?_, ?_, ?_, ?_, ?_, ?_, ?_⟩
  · intro h
    have hf : findElement "Battery" els = none := by
      apply List.find?_eq_none.2
      intro x hx hp
      simp only [Bool.and_eq_true] at hp
      obtain ⟨⟨ha, hb⟩, -⟩ := hp
      rw [h x hx ha] at hb
      exact Bool.false_ne_true hb
    simp [scrapeEnergyFlowEval, hf]
  all_goals intro h
  all_goals simp only [scrapeEnergyFlowEval, h]

/-- C6 (witness): removing a battery card that lacks a `Load:` marker
leaves the solar result unchanged, and that battery load is absent. -/
theorem C6_witness :
    (scrapeEnergyFlowEval "t" pageNoBatteryLoad).battery.load = none
    ∧ (scrapeEnergyFlowEval "t" pageNoBatteryLoad).solar
      = (scrapeEnergyFlowEval "t" pageSolarOnly).solar :=
  ⟨(C6_independent_lookups "t" pageNoBatteryLoad pageSolarOnly).1 (by decide),
   (C6_independent_lookups "t" pageNoBatteryLoad pageSolarOnly).2.1 (by decide)⟩

/-- C7: the login submit step of the unnamed scraper variant follows the
three-tier fallback in order — the first primary Amplify submit button if
one exists, otherwise the first non-tab submit button, and only when
neither exists the Enter keypress from the password field. -/
theorem C7_submit_fallback (els : List BtnEl) :
    (∀ b, queryPrimarySubmit els = some b → submitStep els = SubmitAction.click b)
    ∧ (queryPrimarySubmit els = none → ∀ b, querySubmitNotTab els = some b →
        submitStep els = SubmitAction.click b)
    ∧ (queryPrimarySubmit els = none → querySubmitNotTab els = none →
        submitStep els = SubmitAction.pressEnterPassword) := by
  refine ⟨?_, ?_, ?_⟩
  · intro b hb
    simp [submitStep, hb]
  · intro hn b hb
    simp [submitStep, hn, hb]
  · intro hn hn2
    simp [submitStep, hn, hn2]

/-- C7 (witness): with only a generic submit button present the second
tier clicks it, and with no buttons at all the Enter fallback fires. -/
theorem C7_witness :
    submitStep [btnGeneric] = SubmitAction.click btnGeneric
    ∧ submitStep [] = SubmitAction.pressEnterPassword :=
  ⟨(C7_submit_fallback [btnGeneric]).2.1 rfl btnGeneric rfl,
   (C7_submit_fallback []).2.2 rfl rfl⟩

/-- C8: a `scrape()` call on a session-less scraper performs browser
startup, then authentication, then navigation, then extraction, in
exactly that order (the returned action trace), and the returned snapshot
carries the timestamp captured at the extraction step — which precedes
the return of the call. -/
theorem C8_ordering (c : Option Snapshot) (env : CycleEnv)
    (h1 : env.initFail = none) (h2 : env.loginFail = false) (h3 : env.navFail = none)
    (h4 : env.waitTimeout = false) (h5 : env.evalFail = false) :
    scrape ⟨false, false, c⟩ [env] =
      (⟨true, true, some (scrapeEnergyFlowEval env.ts env.els)⟩,
       some (scrapeEnergyFlowEval env.ts env.els),
       [Ev.cycleStart, Ev.initBrowser, Ev.loginAttempt, Ev.navigate, Ev.extract, Ev.storeCache])
    ∧ (scrapeEnergyFlowEval env.ts env.els).timestamp = env.ts := by
  rcases env with ⟨i, lf, nf, wt, ef, ts, els⟩
  dsimp only at h1 h2 h3 h4 h5
  subst h1 h2 h3 h4 h5
  exact ⟨rfl, rfl⟩

/-- C8 (witness): the fully successful demo environment run from the
fresh state produces exactly the ordered trace. -/
theorem C8_witness :
    scrape initialState [okEnv] =
      (⟨true, true, some (scrapeEnergyFlowEval okEnv.ts okEnv.els)⟩,
       some (scrapeEnergyFlowEval okEnv.ts okEnv.els),
       [Ev.cycleStart, Ev.initBrowser, Ev.loginAttempt, Ev.navigate, Ev.extract, Ev.storeCache]) :=
  (C8_ordering none okEnv rfl rfl rfl rfl rfl).1

/-- C9: `close()` is idempotent and total — a second call right after a
first one changes nothing and performs no action, calling it on the fresh
(never-scraped) state is a no-op, and it never disturbs the cache. -/
theorem C9_close_idempotent (st : ScrState) :
    close (close st).1 = ((close st).1, [])
    ∧ close initialState = (initialState, [])
    ∧ getLatestData (close st).1 = getLatestData st := by
  rcases st with ⟨b, l, d⟩
  refine ⟨?_, rfl, ?_⟩ <;> cases b <;> rfl

/-- C10: because `findElement` requires the card text to contain both the
device label and the literal `Load:`, a page whose battery fragments all
lack `Load:` yields `none` for the battery load, state of charge and
status alike — even when a `SoC:` reading is visibly present. -/
theorem C10_battery_requires_load_marker (ts : String) (els : List String)
    (h : ∀ e ∈ els, jsIncludes e "Battery" = true → jsIncludes e "Load:" = false) :
    (scrapeEnergyFlowEval ts els).battery = ⟨none, none, none⟩ := by
  have hf : findElement "Battery" els = none := by
    apply List.find?_eq_none.2
    intro x hx hp
    simp only [Bool.and_eq_true] at hp
    obtain ⟨⟨ha, hb⟩, -⟩ := hp
    rw [h x hx ha] at hb
    exact Bool.false_ne_true hb
  simp [scrapeEnergyFlowEval, hf]

/-- C10 (witness): a battery card showing `SoC: 78%` but no `Load:`
marker still produces an all-absent battery record. -/
theorem C10_witness :
    (scrapeEnergyFlowEval "t" socOnlyPage).battery = ⟨none, none, none⟩
    ∧ jsIncludes "Battery\nCharging\nSoC: 78%" "SoC:" = true :=
  ⟨C10_battery_requires_load_marker "t" socOnlyPage (by decide), by decide⟩
